import Mathlib

/-!
# Key-pair signer of the alicloud SDK (`sdk/auth/signers/signer_key_pair.go`)

A shallow embedding of `SignerKeyPair` and its operations, followed by the
properties established about them.

Conventions of the embedding

* Go pointers that the code compares with `nil` are `Option`s.
* A Go function that can hit a run-time panic (nil pointer dereference, failed
  type assertion) returns an `Option`; `none` is the panic, `some r` is a
  normal return with result `r`.
* A Go `error` result is an `Option Error`; `none` is the `nil` error.
* Go `int` values are `Int`; the code only compares and copies them.
* Methods that mutate the receiver return the new receiver next to their
  results.
* Collaborators declared outside `signer_key_pair.go` (`ShaHmac1`,
  `defaultDurationSeconds`, `updateCredential`, `needUpdateCredential`,
  `requests.NewCommonRequest`, `json.Unmarshal`) are arguments of the
  operation that uses them.
-/

namespace Signers

/-! ## Data model -/

/-- Error codes of the `errors` package that the signer refers to by name. -/
inductive ErrorCode where
  | InvalidParamErrorCode
  deriving DecidableEq, Repr

/-- Values of Go's `error` interface that reach the signer: the two
constructors of the `errors` package used in the file, and errors produced by
library calls (`json.Unmarshal`, `jmespath.Search`, the transport). -/
inductive Error where
  /-- The value of `errors.NewClientError(errorCode, message, nil)`. -/
  | NewClientError (errorCode : ErrorCode) (message : String)
  /-- The value of `errors.NewServerError(httpStatus, responseContent, comment)`. -/
  | NewServerError (httpStatus : Int) (responseContent : String) (comment : String)
  /-- An error created outside the `errors` package. -/
  | library (text : String)
  deriving DecidableEq, Repr

/-- The fields of `credentials.RsaKeyPairCredential`. -/
structure RsaKeyPairCredential where
  PrivateKey : String
  PublicKeyId : String
  SessionExpiration : Int
  deriving DecidableEq, Repr

/-- The fields of `SessionCredential` that the signer writes and reads. -/
structure SessionCredential where
  AccessKeyId : String
  AccessKeySecret : String
  deriving DecidableEq, Repr

/-- The data fields of `SignerKeyPair`: `credentialExpiration` is the field of
the embedded `credentialUpdater` that the constructor sets, `sessionCredential`
is a pointer that starts out `nil`, `credential` is the pointer handed to the
constructor, which dereferences it. The function-valued fields are the
arguments of the operations below. -/
structure SignerKeyPair where
  credentialExpiration : Int
  sessionCredential : Option SessionCredential
  credential : RsaKeyPairCredential
  deriving DecidableEq, Repr

/-- The scheme constants of the `requests` package. -/
inductive Scheme where
  | unset
  | HTTP
  | HTTPS
  deriving DecidableEq, Repr

/-- A Go `map[string]string` as an association list with distinct keys. -/
abbrev StringMap := List (String × String)

/-- The read `m[k]` with presence flag. -/
def StringMap.lookup (m : StringMap) (k : String) : Option String :=
  match m with
  | [] => none
  | (k', v) :: rest => if k' = k then some v else StringMap.lookup rest k

/-- The assignment `m[k] = v`: replaces the entry of `k` or adds one. -/
def StringMap.assign (m : StringMap) (k v : String) : StringMap :=
  match m with
  | [] => [(k, v)]
  | (k', v') :: rest =>
    if k' = k then (k, v) :: rest else (k', v') :: StringMap.assign rest k v

/-- The fields of `requests.CommonRequest` that `buildCommonRequest` sets. -/
structure CommonRequest where
  Product : String
  Version : String
  ApiName : String
  Scheme : Scheme
  QueryParams : StringMap
  deriving DecidableEq, Repr

/-- What the signer reads of a `responses.CommonResponse`: `GetHttpStatus()`
and `GetHttpContentString()` (`GetHttpContentBytes()` is its byte form). -/
structure CommonResponse where
  httpStatus : Int
  httpContentString : String
  deriving DecidableEq, Repr

/-- The values `json.Unmarshal` stores into an `interface{}`: `nil`, `bool`,
`float64` (kept as its literal), `string`, `[]interface{}` and
`map[string]interface{}`. -/
inductive Json where
  | null
  | bool (b : Bool)
  | number (literal : String)
  | str (s : String)
  | arr (items : List Json)
  | obj (members : List (String × Json))
  deriving Repr

/-- The map read `m[key]` on decoded members; an absent key reads as `nil`. -/
def Json.member (members : List (String × Json)) (key : String) : Json :=
  match members with
  | [] => Json.null
  | (k, v) :: rest => if k = key then v else Json.member rest key

/-- The JMESPath field node: on a `map[string]interface{}` it is the map read,
on every other decoded value it is `nil`. -/
def Json.field (key : String) : Json → Json
  | Json.obj members => Json.member members key
  | _ => Json.null

/-- The call `jmespath.Search(expression, data)` for a dotted expression
`f1.f2...`, given as its list of field names: a sub-expression evaluates its
left side and then the right side on that result. Field access never fails, so
the error result is always `nil`. -/
def jmespath_Search (path : List String) (data : Json) : Except Error Json :=
  Except.ok (path.foldl (fun value key => Json.field key value) data)

/-- The call `strconv.Itoa`: the decimal text of an integer. -/
def strconv_Itoa (n : Int) : String :=
  if n < 0 then "-" ++ Nat.repr n.natAbs else Nat.repr n.toNat

/-- The constant `http.StatusOK`. -/
def http_StatusOK : Int := 200

/-! ## Operations of `signer_key_pair.go` -/

/-- The constructor `NewSignerKeyPair`: returns the signer together with the
error; the signer is returned in the error case too. -/
def NewSignerKeyPair (defaultDurationSeconds : Int) (credential : RsaKeyPairCredential) :
    SignerKeyPair × Option Error :=
  let signer : SignerKeyPair :=
    { credentialExpiration := credential.SessionExpiration
      sessionCredential := none
      credential := credential }
  if credential.SessionExpiration > 0 then
    if credential.SessionExpiration ≥ 900 ∧ credential.SessionExpiration ≤ 3600 then
      ({ signer with credentialExpiration := credential.SessionExpiration }, none)
    else
      (signer, some (Error.NewClientError ErrorCode.InvalidParamErrorCode
        "Key Pair session duration should be in the range of 15min - 1Hr"))
  else
    ({ signer with credentialExpiration := defaultDurationSeconds }, none)

/-- The method `GetName`. -/
def SignerKeyPair.GetName (_signer : SignerKeyPair) : String := "HMAC-SHA1"

/-- The method `GetType`. -/
def SignerKeyPair.GetType (_signer : SignerKeyPair) : String := ""

/-- The method `GetVersion`. -/
def SignerKeyPair.GetVersion (_signer : SignerKeyPair) : String := "1.0"

/-- The condition
`signer.sessionCredential == nil || len(signer.sessionCredential.AccessKeyId) <= 0`,
whose right side is evaluated only on a non-nil pointer. -/
def nilOrEmptyId (sessionCredential : Option SessionCredential) : Bool :=
  match sessionCredential with
  | none => true
  | some c => decide (c.AccessKeyId.length ≤ 0)

/-- The method `GetAccessKeyId`. `needUpdateCredential` is the result the call
`signer.needUpdateCredential()` gives if it is reached, `updateCredential` is
the method of the embedded updater: it returns the signer after the refresh
and the error. The result is the id, the error and the signer afterwards;
`none` is a nil pointer dereference at the final `return`. -/
def SignerKeyPair.GetAccessKeyId (needUpdateCredential : Bool)
    (updateCredential : SignerKeyPair → Option (SignerKeyPair × Option Error))
    (signer : SignerKeyPair) : Option (String × Option Error × SignerKeyPair) :=
  let afterRefresh : Option (SignerKeyPair × Option Error) :=
    if signer.sessionCredential = none ∨ needUpdateCredential = true then
      updateCredential signer
    else
      some (signer, none)
  match afterRefresh with
  | none => none
  | some (signer, err) =>
    if err ≠ none ∧ nilOrEmptyId signer.sessionCredential = true then
      some ("", err, signer)
    else
      match signer.sessionCredential with
      | none => none
      | some sessionCredential => some (sessionCredential.AccessKeyId, err, signer)

/-- The method `GetExtraParam`: the refresh result is dropped and both
branches return a fresh empty map. -/
def SignerKeyPair.GetExtraParam (needUpdateCredential : Bool)
    (updateCredential : SignerKeyPair → Option (SignerKeyPair × Option Error))
    (signer : SignerKeyPair) : Option (StringMap × SignerKeyPair) :=
  let afterRefresh : Option (SignerKeyPair × Option Error) :=
    if signer.sessionCredential = none ∨ needUpdateCredential = true then
      updateCredential signer
    else
      some (signer, none)
  match afterRefresh with
  | none => none
  | some (signer, _) =>
    if nilOrEmptyId signer.sessionCredential = true then
      some ([], signer)
    else
      some ([], signer)

/-- The method `Sign`. `shaHmac1` is the package function `ShaHmac1`. The
field read `signer.sessionCredential.AccessKeyId` dereferences the pointer:
`none` is the panic on a nil `sessionCredential`. -/
def SignerKeyPair.Sign (shaHmac1 : String → String → String) (signer : SignerKeyPair)
    (stringToSign secretSuffix : String) : Option String :=
  match signer.sessionCredential with
  | none => none
  | some sessionCredential =>
    let secret := sessionCredential.AccessKeyId ++ secretSuffix
    some (shaHmac1 stringToSign secret)

/-- The method `buildCommonRequest`. `NewCommonRequest` is the value of
`requests.NewCommonRequest()`. -/
def SignerKeyPair.buildCommonRequest (NewCommonRequest : CommonRequest)
    (signer : SignerKeyPair) : CommonRequest × Option Error :=
  let request := NewCommonRequest
  let request := { request with Product := "Sts" }
  let request := { request with Version := "2015-04-01" }
  let request := { request with ApiName := "GenerateSessionAccessKey" }
  let request := { request with Scheme := Scheme.HTTPS }
  let request := { request with
    QueryParams := request.QueryParams.assign "PublicKeyId" signer.credential.PublicKeyId }
  let request := { request with
    QueryParams := request.QueryParams.assign "DurationSeconds"
      (strconv_Itoa signer.credentialExpiration) }
  (request, none)

/-- The type assertion `v.(string)`: `none` is the panic on a value of another
dynamic type. -/
def Json.assertString : Json → Option String
  | Json.str s => some s
  | _ => none

/-- The method `refreshCredential`. `unmarshal` is `json.Unmarshal` into an
`interface{}`. The result is the signer afterwards and the error; `none` is
the panic of a failed type assertion. -/
def SignerKeyPair.refreshCredential (unmarshal : String → Except Error Json)
    (signer : SignerKeyPair) (response : CommonResponse) :
    Option (SignerKeyPair × Option Error) :=
  if response.httpStatus ≠ http_StatusOK then
    let message := "refresh session AccessKey failed"
    some (signer,
      some (Error.NewServerError response.httpStatus response.httpContentString message))
  else
    match unmarshal response.httpContentString with
    | Except.error err => some (signer, some err)
    | Except.ok data =>
      match jmespath_Search ["SessionAccessKey", "SessionAccessKeyId"] data with
      | Except.error err => some (signer, some err)
      | Except.ok accessKeyId =>
        match jmespath_Search ["SessionAccessKey", "SessionAccessKeySecret"] data with
        | Except.error err => some (signer, some err)
        | Except.ok accessKeySecret =>
          match accessKeyId, accessKeySecret with
          | Json.null, _ => some (signer, none)
          | _, Json.null => some (signer, none)
          | accessKeyId, accessKeySecret =>
            match accessKeyId.assertString, accessKeySecret.assertString with
            | some id, some secret =>
              some ({ signer with
                sessionCredential := some { AccessKeyId := id, AccessKeySecret := secret } },
                none)
            | _, _ => none

/-- The method `Shutdown`: no effect. -/
def SignerKeyPair.Shutdown (signer : SignerKeyPair) : SignerKeyPair := signer

/-! ## Library functions used at concrete inputs

The operations above take `ShaHmac1` and `json.Unmarshal` as arguments. The
definitions below give them values, so that the operations can be evaluated on
concrete requests and responses. -/

namespace Sha1

/-- The UTF-8 bytes of a character. -/
def utf8Char (c : Char) : List Nat :=
  let n := c.toNat
  if n < 0x80 then [n]
  else if n < 0x800 then [0xC0 + n / 0x40, 0x80 + n % 0x40]
  else if n < 0x10000 then [0xE0 + n / 0x1000, 0x80 + n / 0x40 % 0x40, 0x80 + n % 0x40]
  else [0xF0 + n / 0x40000, 0x80 + n / 0x1000 % 0x40, 0x80 + n / 0x40 % 0x40, 0x80 + n % 0x40]

/-- The conversion `[]byte(s)`. -/
def bytes (s : String) : List Nat := s.data.flatMap utf8Char

/-- Rotation of a 32-bit word to the left. -/
def rotl (n x : Nat) : Nat := ((x <<< n) ||| (x >>> (32 - n))) % 2 ^ 32

/-- The big-endian bytes of `x`, `n` of them. -/
def bigEndian : Nat → Nat → List Nat
  | 0, _ => []
  | n + 1, x => bigEndian n (x / 256) ++ [x % 256]

/-- The message followed by the SHA-1 padding. -/
def pad (msg : List Nat) : List Nat :=
  msg ++ [0x80] ++ List.replicate ((119 - msg.length % 64) % 64) 0 ++ bigEndian 8 (8 * msg.length)

/-- The big-endian number of a byte list. -/
def word (bs : List Nat) : Nat := bs.foldl (fun acc b => acc * 256 + b) 0

/-- Cuts a list into pieces of `n` items; `fuel` bounds the number of pieces. -/
def chunks (n : Nat) : Nat → List Nat → List (List Nat)
  | 0, _ => []
  | fuel + 1, bs => if bs = [] then [] else bs.take n :: chunks n fuel (bs.drop n)

/-- Extends the 16 words of a block to the 80 words of the schedule; the list
is kept newest first. -/
def schedule : Nat → List Nat → List Nat
  | 0, w => w
  | k + 1, w =>
    schedule k
      (rotl 1 (w.getD 2 0 ^^^ w.getD 7 0 ^^^ w.getD 13 0 ^^^ w.getD 15 0) :: w)

/-- The working variables of the compression function. -/
structure Vars where
  a : Nat
  b : Nat
  c : Nat
  d : Nat
  e : Nat
  deriving DecidableEq, Repr

/-- The round function and constant of round `t`. -/
def fk (t b c d : Nat) : Nat × Nat :=
  if t < 20 then ((b &&& c) ||| ((b ^^^ 0xFFFFFFFF) &&& d), 0x5A827999)
  else if t < 40 then (b ^^^ c ^^^ d, 0x6ED9EBA1)
  else if t < 60 then ((b &&& c) ||| (b &&& d) ||| (c &&& d), 0x8F1BBCDC)
  else (b ^^^ c ^^^ d, 0xCA62C1D6)

/-- One round. -/
def round (v : Vars) (t w : Nat) : Vars :=
  { a := (rotl 5 v.a + (fk t v.b v.c v.d).1 + v.e + (fk t v.b v.c v.d).2 + w) % 2 ^ 32
    b := v.a
    c := rotl 30 v.b
    d := v.c
    e := v.d }

/-- The rounds over the schedule words, oldest first, starting at round `t`. -/
def rounds : Vars → Nat → List Nat → Vars
  | v, _, [] => v
  | v, t, w :: ws => rounds (round v t w) (t + 1) ws

/-- The compression of one 64-byte block into the chaining value. -/
def compress (h : Vars) (block : List Nat) : Vars :=
  let w := (schedule 64 ((chunks 4 16 block).map word).reverse).reverse
  let v := rounds h 0 w
  { a := (h.a + v.a) % 2 ^ 32
    b := (h.b + v.b) % 2 ^ 32
    c := (h.c + v.c) % 2 ^ 32
    d := (h.d + v.d) % 2 ^ 32
    e := (h.e + v.e) % 2 ^ 32 }

/-- The initial chaining value. -/
def init : Vars :=
  { a := 0x67452301, b := 0xEFCDAB89, c := 0x98BADCFE, d := 0x10325476, e := 0xC3D2E1F0 }

/-- The SHA-1 digest of a byte list, as 20 bytes. -/
def sum (msg : List Nat) : List Nat :=
  let p := pad msg
  let h := (chunks 64 (p.length / 64) p).foldl compress init
  bigEndian 4 h.a ++ bigEndian 4 h.b ++ bigEndian 4 h.c ++ bigEndian 4 h.d ++ bigEndian 4 h.e

/-- The HMAC of `msg` under `key` with SHA-1 (block size 64). -/
def hmac (key msg : List Nat) : List Nat :=
  let k := if key.length > 64 then sum key else key
  let k := k ++ List.replicate (64 - k.length) 0
  sum (k.map (fun b => b ^^^ 0x5c) ++ sum (k.map (fun b => b ^^^ 0x36) ++ msg))

/-- The alphabet of `base64.StdEncoding`. -/
def alphabet : List Char :=
  "ABCDEFGHIJKLMNOPQRSTUVWXYZabcdefghijklmnopqrstuvwxyz0123456789+/".data

/-- The character of a 6-bit value. -/
def b64 (n : Nat) : Char := alphabet.getD n '='

/-- The encoding `base64.StdEncoding.EncodeToString`. -/
def base64 : List Nat → List Char
  | [] => []
  | [x] => [b64 (x / 4), b64 (x % 4 * 16), '=', '=']
  | [x, y] => [b64 (x / 4), b64 (x % 4 * 16 + y / 16), b64 (y % 16 * 4), '=']
  | x :: y :: z :: rest =>
    b64 (x / 4) :: b64 (x % 4 * 16 + y / 16) :: b64 (y % 16 * 4 + z / 64) :: b64 (z % 64) ::
      base64 rest

end Sha1

/-- Modelled from the spec: `ShaHmac1(source, secret)` is declared in another
file of the package. The signer names its algorithm "HMAC-SHA1": the function
is the HMAC of `source` under the key `secret` with SHA-1, in standard base64. -/
def ShaHmac1 (source secret : String) : String :=
  String.mk (Sha1.base64 (Sha1.hmac (Sha1.bytes secret) (Sha1.bytes source)))

namespace JsonText

/-- JSON white space. -/
def isSpace (c : Char) : Bool :=
  c = ' ' || c = '\t' || c = '\n' || c = '\r'

/-- Drops leading white space. -/
def skipSpace : List Char → List Char
  | [] => []
  | c :: cs => if isSpace c then skipSpace cs else c :: cs

/-- The value of a hexadecimal digit. -/
def hexDigit (c : Char) : Option Nat :=
  if '0' ≤ c ∧ c ≤ '9' then some (c.toNat - '0'.toNat)
  else if 'a' ≤ c ∧ c ≤ 'f' then some (c.toNat - 'a'.toNat + 10)
  else if 'A' ≤ c ∧ c ≤ 'F' then some (c.toNat - 'A'.toNat + 10)
  else none

/-- The character of a one-letter escape. -/
def simpleEscape (c : Char) : Option Char :=
  if c = '"' then some '"'
  else if c = '\\' then some '\\'
  else if c = '/' then some '/'
  else if c = 'b' then some (Char.ofNat 8)
  else if c = 'f' then some (Char.ofNat 12)
  else if c = 'n' then some '\n'
  else if c = 'r' then some '\r'
  else if c = 't' then some '\t'
  else none

/-- Reads four hexadecimal digits as a number. -/
def hex4 : List Char → Option (Nat × List Char)
  | a :: b :: c :: d :: rest =>
    match hexDigit a, hexDigit b, hexDigit c, hexDigit d with
    | some x, some y, some z, some w => some (((x * 16 + y) * 16 + z) * 16 + w, rest)
    | _, _, _, _ => none
  | _ => none

/-- The character of a `\u` escape whose four digits gave `hi`, and the text
left to read: a high surrogate followed by an escaped low surrogate is decoded
as a pair, any other surrogate becomes U+FFFD. -/
def unicodeEscape (hi : Nat) (rest : List Char) : Char × List Char :=
  if 0xD800 ≤ hi ∧ hi < 0xE000 then
    match rest with
    | '\\' :: 'u' :: more =>
      match hex4 more with
      | some (lo, after) =>
        if hi < 0xDC00 ∧ 0xDC00 ≤ lo ∧ lo < 0xE000 then
          (Char.ofNat (0x10000 + (hi - 0xD800) * 0x400 + (lo - 0xDC00)), after)
        else (Char.ofNat 0xFFFD, rest)
      | none => (Char.ofNat 0xFFFD, rest)
    | _ => (Char.ofNat 0xFFFD, rest)
  else (Char.ofNat hi, rest)

/-- Reads a string literal after its opening quote; `acc` holds the decoded
characters in reverse and `fuel` bounds the characters read. -/
def stringBody : Nat → List Char → List Char → Option (String × List Char)
  | 0, _, _ => none
  | _, _, [] => none
  | fuel + 1, acc, c :: cs =>
    if c = '"' then some (String.mk acc.reverse, cs)
    else if c = '\\' then
      match cs with
      | [] => none
      | 'u' :: rest =>
        match hex4 rest with
        | some (hi, after) =>
          stringBody fuel ((unicodeEscape hi after).1 :: acc) (unicodeEscape hi after).2
        | none => none
      | e :: rest =>
        match simpleEscape e with
        | some d => stringBody fuel (d :: acc) rest
        | none => none
    else if c.toNat < 32 then none
    else stringBody fuel (c :: acc) cs

/-- Splits off the leading decimal digits. -/
def digits : List Char → List Char × List Char
  | [] => ([], [])
  | c :: cs => if c.isDigit then (c :: (digits cs).1, (digits cs).2) else ([], c :: cs)

/-- Reads the integer part of a number: `0`, or a non-zero digit and digits. -/
def intPart : List Char → Option (List Char × List Char)
  | '0' :: rest => some (['0'], rest)
  | c :: rest => if c.isDigit then some (c :: (digits rest).1, (digits rest).2) else none
  | [] => none

/-- Reads an optional fraction: a point and at least one digit. -/
def fracPart : List Char → Option (List Char × List Char)
  | '.' :: rest =>
    match digits rest with
    | ([], _) => none
    | (ds, after) => some ('.' :: ds, after)
  | cs => some ([], cs)

/-- Reads at least one digit of an exponent. -/
def expDigits (pre : List Char) (cs : List Char) : Option (List Char × List Char) :=
  match digits cs with
  | ([], _) => none
  | (ds, after) => some (pre ++ ds, after)

/-- Reads an optional exponent: `e` or `E`, an optional sign, digits. -/
def expPart : List Char → Option (List Char × List Char)
  | 'e' :: '+' :: rest => expDigits ['e', '+'] rest
  | 'e' :: '-' :: rest => expDigits ['e', '-'] rest
  | 'e' :: rest => expDigits ['e'] rest
  | 'E' :: '+' :: rest => expDigits ['E', '+'] rest
  | 'E' :: '-' :: rest => expDigits ['E', '-'] rest
  | 'E' :: rest => expDigits ['E'] rest
  | cs => some ([], cs)

/-- Reads a number after its optional minus sign. -/
def unsignedNumber (cs : List Char) : Option (List Char × List Char) :=
  match intPart cs with
  | none => none
  | some (i, r1) =>
    match fracPart r1 with
    | none => none
    | some (f, r2) =>
      match expPart r2 with
      | none => none
      | some (e, r3) => some (i ++ f ++ e, r3)

/-- Reads a number literal and keeps its text. -/
def number : List Char → Option (Json × List Char)
  | '-' :: rest =>
    match unsignedNumber rest with
    | some (t, after) => some (Json.number (String.mk ('-' :: t)), after)
    | none => none
  | cs =>
    match unsignedNumber cs with
    | some (t, after) => some (Json.number (String.mk t), after)
    | none => none

/-- Assignment into decoded members: a repeated key keeps its last value. -/
def assign (members : List (String × Json)) (k : String) (v : Json) : List (String × Json) :=
  match members with
  | [] => [(k, v)]
  | (k', v') :: rest => if k' = k then (k, v) :: rest else (k', v') :: assign rest k v

mutual
/-- Reads one JSON value. -/
def value : Nat → List Char → Option (Json × List Char)
  | 0, _ => none
  | fuel + 1, cs =>
    match skipSpace cs with
    | '{' :: rest =>
      match skipSpace rest with
      | '}' :: rest => some (Json.obj [], rest)
      | rest => members fuel [] rest
    | '[' :: rest =>
      match skipSpace rest with
      | ']' :: rest => some (Json.arr [], rest)
      | rest => elements fuel [] rest
    | '"' :: rest =>
      match stringBody fuel [] rest with
      | some (s, rest) => some (Json.str s, rest)
      | none => none
    | 'n' :: 'u' :: 'l' :: 'l' :: rest => some (Json.null, rest)
    | 't' :: 'r' :: 'u' :: 'e' :: rest => some (Json.bool true, rest)
    | 'f' :: 'a' :: 'l' :: 's' :: 'e' :: rest => some (Json.bool false, rest)
    | rest => number rest
/-- Reads the members of an object after the opening brace. -/
def members : Nat → List (String × Json) → List Char → Option (Json × List Char)
  | 0, _, _ => none
  | fuel + 1, acc, cs =>
    match skipSpace cs with
    | '"' :: rest =>
      match stringBody fuel [] rest with
      | none => none
      | some (k, rest) =>
        match skipSpace rest with
        | ':' :: rest =>
          match value fuel rest with
          | none => none
          | some (v, rest) =>
            match skipSpace rest with
            | ',' :: rest => members fuel (assign acc k v) rest
            | '}' :: rest => some (Json.obj (assign acc k v), rest)
            | _ => none
        | _ => none
    | _ => none
/-- Reads the elements of an array after the opening bracket. -/
def elements : Nat → List Json → List Char → Option (Json × List Char)
  | 0, _, _ => none
  | fuel + 1, acc, cs =>
    match value fuel cs with
    | none => none
    | some (v, rest) =>
      match skipSpace rest with
      | ',' :: rest => elements fuel (acc ++ [v]) rest
      | ']' :: rest => some (Json.arr (acc ++ [v]), rest)
      | _ => none
end

end JsonText

/-- The call `json.Unmarshal(text, &data)` with `data` an `interface{}`: the
text must be one JSON value between optional white space. Numbers keep their
literal, and the texts of the errors are not those of the library. -/
def json_Unmarshal (text : String) : Except Error Json :=
  match JsonText.value (text.length + 1) text.data with
  | some (v, rest) =>
    match JsonText.skipSpace rest with
    | [] => Except.ok v
    | _ => Except.error (Error.library "invalid character after top-level value")
  | none => Except.error (Error.library "invalid JSON text")

/-! ## Sample values

Signers, requests, responses and updater behaviours at which the properties
below are instantiated. -/

/-- The message of the construction error. -/
def durationMessage : String :=
  "Key Pair session duration should be in the range of 15min - 1Hr"

/-- The expression `SessionAccessKey.SessionAccessKeyId`. -/
def idPath : List String := ["SessionAccessKey", "SessionAccessKeyId"]

/-- The expression `SessionAccessKey.SessionAccessKeySecret`. -/
def secretPath : List String := ["SessionAccessKey", "SessionAccessKeySecret"]

/-- A signer that holds the session credential `OLDID` / `OLDSECRET`. -/
def signerWithSession : SignerKeyPair :=
  { credentialExpiration := 3600
    sessionCredential := some { AccessKeyId := "OLDID", AccessKeySecret := "OLDSECRET" }
    credential := { PrivateKey := "key", PublicKeyId := "id", SessionExpiration := 3600 } }

/-- A signer right after construction: no session credential. -/
def freshSigner : SignerKeyPair :=
  (NewSignerKeyPair 3600 { PrivateKey := "key", PublicKeyId := "id", SessionExpiration := 0 }).1

/-- The body of a well-formed refresh response with id `AKID1` and secret
`SECRET1`. -/
def sessionBody : String :=
  "\x7b\"SessionAccessKey\":\x7b\"SessionAccessKeyId\":\"AKID1\",\"SessionAccessKeySecret\":\"SECRET1\"\x7d\x7d"

/-- The body of a refresh response whose `SessionAccessKeyId` is `null`. -/
def nullIdBody : String :=
  "\x7b\"SessionAccessKey\":\x7b\"SessionAccessKeyId\":null,\"SessionAccessKeySecret\":\"SECRET1\"\x7d\x7d"

/-- A signer whose session credential has an empty id. -/
def signerWithEmptyId : SignerKeyPair :=
  { credentialExpiration := 3600
    sessionCredential := some { AccessKeyId := "", AccessKeySecret := "OLDSECRET" }
    credential := { PrivateKey := "key", PublicKeyId := "id", SessionExpiration := 3600 } }

/-- An `updateCredential` whose transport answers with the given response:
the updater hands the response to the callback `refreshCredential`. -/
def updateFromResponse (response : CommonResponse) (signer : SignerKeyPair) :
    Option (SignerKeyPair × Option Error) :=
  signer.refreshCredential json_Unmarshal response

/-- An `updateCredential` whose transport fails with `err` before any response
is handled: the signer is left as it was. -/
def updateFailing (err : Error) (signer : SignerKeyPair) :
    Option (SignerKeyPair × Option Error) :=
  some (signer, some err)

/-- A new common request with no query parameters. -/
def emptyCommonRequest : CommonRequest :=
  { Product := "", Version := "", ApiName := "", Scheme := Scheme.unset, QueryParams := [] }

/-- A signer that holds the session credential `AKID1` / `SECRET1`. -/
def signerOne : SignerKeyPair :=
  { credentialExpiration := 3600
    sessionCredential := some { AccessKeyId := "AKID1", AccessKeySecret := "SECRET1" }
    credential := { PrivateKey := "key", PublicKeyId := "id", SessionExpiration := 3600 } }

/-- A signer that holds the session credential `AKID2` / `SECRET1`: the secret
of `signerOne` under another id. -/
def signerTwo : SignerKeyPair :=
  { credentialExpiration := 3600
    sessionCredential := some { AccessKeyId := "AKID2", AccessKeySecret := "SECRET1" }
    credential := { PrivateKey := "key", PublicKeyId := "id", SessionExpiration := 3600 } }

/-! ## Properties -/

/-! ### Construction -/

/-- C1: `NewSignerKeyPair` on a credential with `SessionExpiration = v`: if
`v > 0` and `v` lies outside `[900, 3600]` the error is the `InvalidParam`
client error; if `v = 0` there is no error and `credentialExpiration` is
`defaultDurationSeconds`; if `900 ≤ v ≤ 3600` there is no error and
`credentialExpiration` is `v`. -/
theorem NewSignerKeyPair_sessionExpiration (defaultDurationSeconds : Int)
    (credential : RsaKeyPairCredential) :
    ((0 < credential.SessionExpiration ∧
        (credential.SessionExpiration < 900 ∨ 3600 < credential.SessionExpiration)) →
      (NewSignerKeyPair defaultDurationSeconds credential).2 =
        some (Error.NewClientError ErrorCode.InvalidParamErrorCode durationMessage)) ∧
    (credential.SessionExpiration = 0 →
      (NewSignerKeyPair defaultDurationSeconds credential).2 = none ∧
      (NewSignerKeyPair defaultDurationSeconds credential).1.credentialExpiration =
        defaultDurationSeconds) ∧
    ((900 ≤ credential.SessionExpiration ∧ credential.SessionExpiration ≤ 3600) →
      (NewSignerKeyPair defaultDurationSeconds credential).2 = none ∧
      (NewSignerKeyPair defaultDurationSeconds credential).1.credentialExpiration =
        credential.SessionExpiration) := by
  refine ⟨?_, ?_, ?_⟩
  · rintro ⟨hpos, hout⟩
    have hnot : ¬ (credential.SessionExpiration ≥ 900 ∧ credential.SessionExpiration ≤ 3600) := by
      omega
    simp [NewSignerKeyPair, hpos, hnot, durationMessage]
  · intro hzero
    simp [NewSignerKeyPair, hzero]
  · rintro ⟨hlo, hhi⟩
    have hpos : credential.SessionExpiration > 0 := by omega
    simp [NewSignerKeyPair, hpos, hlo, hhi]

/-- Instances of C1 at `v = 899`, `v = 3601`, `v = 0`, `v = 900` and `v = 3600`
with the default duration 3600. -/
theorem NewSignerKeyPair_sessionExpiration_witness :
    (NewSignerKeyPair 3600 ⟨"key", "id", 899⟩).2 =
        some (Error.NewClientError ErrorCode.InvalidParamErrorCode durationMessage) ∧
    (NewSignerKeyPair 3600 ⟨"key", "id", 3601⟩).2 =
        some (Error.NewClientError ErrorCode.InvalidParamErrorCode durationMessage) ∧
    ((NewSignerKeyPair 3600 ⟨"key", "id", 0⟩).2 = none ∧
      (NewSignerKeyPair 3600 ⟨"key", "id", 0⟩).1.credentialExpiration = 3600) ∧
    ((NewSignerKeyPair 3600 ⟨"key", "id", 900⟩).2 = none ∧
      (NewSignerKeyPair 3600 ⟨"key", "id", 900⟩).1.credentialExpiration = 900) ∧
    ((NewSignerKeyPair 3600 ⟨"key", "id", 3600⟩).2 = none ∧
      (NewSignerKeyPair 3600 ⟨"key", "id", 3600⟩).1.credentialExpiration = 3600) :=
  ⟨(NewSignerKeyPair_sessionExpiration 3600 ⟨"key", "id", 899⟩).1 (by decide),
   (NewSignerKeyPair_sessionExpiration 3600 ⟨"key", "id", 3601⟩).1 (by decide),
   (NewSignerKeyPair_sessionExpiration 3600 ⟨"key", "id", 0⟩).2.1 (by decide),
   (NewSignerKeyPair_sessionExpiration 3600 ⟨"key", "id", 900⟩).2.2 (by decide),
   (NewSignerKeyPair_sessionExpiration 3600 ⟨"key", "id", 3600⟩).2.2 (by decide)⟩

/-- C8, as stated, fails at `SessionExpiration = -1`: the value is not zero and
lies outside `[900, 3600]`, yet the constructor returns no error and the signer
has the default duration. -/
theorem NewSignerKeyPair_negative_counterexample :
    (-1 : Int) ≠ 0 ∧ ((-1 : Int) < 900 ∨ 3600 < (-1 : Int)) ∧
    (NewSignerKeyPair 3600 ⟨"key", "id", -1⟩).2 = none ∧
    (NewSignerKeyPair 3600 ⟨"key", "id", -1⟩).1.credentialExpiration = 3600 := by
  decide

/-- C8, amended: every positive `SessionExpiration` outside `[900, 3600]` gives
the construction error, and every `SessionExpiration ≤ 0` (zero or negative)
gives no error and the default duration. -/
theorem NewSignerKeyPair_out_of_range (defaultDurationSeconds : Int)
    (credential : RsaKeyPairCredential) :
    ((0 < credential.SessionExpiration ∧
        ¬ (900 ≤ credential.SessionExpiration ∧ credential.SessionExpiration ≤ 3600)) →
      (NewSignerKeyPair defaultDurationSeconds credential).2 =
        some (Error.NewClientError ErrorCode.InvalidParamErrorCode durationMessage)) ∧
    (credential.SessionExpiration ≤ 0 →
      (NewSignerKeyPair defaultDurationSeconds credential).2 = none ∧
      (NewSignerKeyPair defaultDurationSeconds credential).1.credentialExpiration =
        defaultDurationSeconds) := by
  refine ⟨?_, ?_⟩
  · rintro ⟨hpos, hout⟩
    have hnot : ¬ (credential.SessionExpiration ≥ 900 ∧ credential.SessionExpiration ≤ 3600) := by
      omega
    simp [NewSignerKeyPair, hpos, hnot, durationMessage]
  · intro hle
    have hnpos : ¬ (credential.SessionExpiration > 0) := by omega
    simp [NewSignerKeyPair, hnpos]

/-- Instances of the amended C8 at `v = 5000`, `v = 1`, `v = -7` and `v = 0`. -/
theorem NewSignerKeyPair_out_of_range_witness :
    (NewSignerKeyPair 3600 ⟨"key", "id", 5000⟩).2 =
        some (Error.NewClientError ErrorCode.InvalidParamErrorCode durationMessage) ∧
    (NewSignerKeyPair 3600 ⟨"key", "id", 1⟩).2 =
        some (Error.NewClientError ErrorCode.InvalidParamErrorCode durationMessage) ∧
    ((NewSignerKeyPair 3600 ⟨"key", "id", -7⟩).2 = none ∧
      (NewSignerKeyPair 3600 ⟨"key", "id", -7⟩).1.credentialExpiration = 3600) ∧
    ((NewSignerKeyPair 1800 ⟨"key", "id", 0⟩).2 = none ∧
      (NewSignerKeyPair 1800 ⟨"key", "id", 0⟩).1.credentialExpiration = 1800) :=
  ⟨(NewSignerKeyPair_out_of_range 3600 ⟨"key", "id", 5000⟩).1 (by decide),
   (NewSignerKeyPair_out_of_range 3600 ⟨"key", "id", 1⟩).1 (by decide),
   (NewSignerKeyPair_out_of_range 3600 ⟨"key", "id", -7⟩).2 (by decide),
   (NewSignerKeyPair_out_of_range 1800 ⟨"key", "id", 0⟩).2 (by decide)⟩

/-! ### Handling the refresh response -/

/-- C3: on a response whose status is not 200, `refreshCredential` returns
`errors.NewServerError(status, body, "refresh session AccessKey failed")` and
the signer, its session credential included, is the one before the call. -/
theorem refreshCredential_non_ok_status (unmarshal : String → Except Error Json)
    (signer : SignerKeyPair) (response : CommonResponse)
    (hstatus : response.httpStatus ≠ 200) :
    signer.refreshCredential unmarshal response =
      some (signer, some (Error.NewServerError response.httpStatus response.httpContentString
        "refresh session AccessKey failed")) := by
  simp [SignerKeyPair.refreshCredential, http_StatusOK, hstatus]

/-- Instance of C3: status 500 with body `boom`, once with a session credential
held and once with none. -/
theorem refreshCredential_non_ok_status_witness :
    (signerWithSession.refreshCredential json_Unmarshal ⟨500, "boom"⟩ =
      some (signerWithSession,
        some (Error.NewServerError 500 "boom" "refresh session AccessKey failed"))) ∧
    (freshSigner.refreshCredential json_Unmarshal ⟨500, "boom"⟩ =
      some (freshSigner,
        some (Error.NewServerError 500 "boom" "refresh session AccessKey failed"))) :=
  ⟨refreshCredential_non_ok_status json_Unmarshal signerWithSession ⟨500, "boom"⟩ (by decide),
   refreshCredential_non_ok_status json_Unmarshal freshSigner ⟨500, "boom"⟩ (by decide)⟩

/-- C4: on a response with status 200 whose decoded body has the strings `id`
at `SessionAccessKey.SessionAccessKeyId` and `secret` at
`SessionAccessKey.SessionAccessKeySecret`, `refreshCredential` returns no error
and the signer afterwards holds the session credential made of exactly `id`
and `secret`, whatever it held before; its other fields are unchanged. -/
theorem refreshCredential_installs_session (unmarshal : String → Except Error Json)
    (signer : SignerKeyPair) (response : CommonResponse) (data : Json) (id secret : String)
    (hstatus : response.httpStatus = 200)
    (hbody : unmarshal response.httpContentString = Except.ok data)
    (hid : jmespath_Search idPath data = Except.ok (Json.str id))
    (hsecret : jmespath_Search secretPath data = Except.ok (Json.str secret)) :
    signer.refreshCredential unmarshal response =
      some ({ signer with
        sessionCredential := some { AccessKeyId := id, AccessKeySecret := secret } }, none) := by
  simp only [idPath, secretPath] at hid hsecret
  simp [SignerKeyPair.refreshCredential, http_StatusOK, hstatus, hbody, hid, hsecret,
    Json.assertString]

/-- Instance of C4: the body with `AKID1` and `SECRET1`, on a signer that holds
an older session credential and on one that holds none. -/
theorem refreshCredential_installs_session_witness :
    (signerWithSession.refreshCredential json_Unmarshal ⟨200, sessionBody⟩ =
      some ({ signerWithSession with
        sessionCredential := some { AccessKeyId := "AKID1", AccessKeySecret := "SECRET1" } },
        none)) ∧
    (freshSigner.refreshCredential json_Unmarshal ⟨200, sessionBody⟩ =
      some ({ freshSigner with
        sessionCredential := some { AccessKeyId := "AKID1", AccessKeySecret := "SECRET1" } },
        none)) :=
  ⟨refreshCredential_installs_session json_Unmarshal signerWithSession ⟨200, sessionBody⟩
      (Json.obj [("SessionAccessKey", Json.obj [("SessionAccessKeyId", Json.str "AKID1"),
        ("SessionAccessKeySecret", Json.str "SECRET1")])])
      "AKID1" "SECRET1" rfl rfl rfl rfl,
   refreshCredential_installs_session json_Unmarshal freshSigner ⟨200, sessionBody⟩
      (Json.obj [("SessionAccessKey", Json.obj [("SessionAccessKeyId", Json.str "AKID1"),
        ("SessionAccessKeySecret", Json.str "SECRET1")])])
      "AKID1" "SECRET1" rfl rfl rfl rfl⟩

/-- C5, as stated, fails at status 200 with the body `{}`: both fields are
missing, yet `refreshCredential` returns the `nil` error and the signer is the
one before the call. -/
theorem refreshCredential_empty_object_counterexample :
    json_Unmarshal "\x7b\x7d" = Except.ok (Json.obj []) ∧
    signerWithSession.refreshCredential json_Unmarshal ⟨200, "\x7b\x7d"⟩ =
      some (signerWithSession, none) ∧
    freshSigner.refreshCredential json_Unmarshal ⟨200, "\x7b\x7d"⟩ =
      some (freshSigner, none) :=
  ⟨rfl, rfl, rfl⟩

/-- C5, amended: on a response with status 200 whose decoded body has no value,
or `null`, at `SessionAccessKey.SessionAccessKeyId` or at
`SessionAccessKey.SessionAccessKeySecret`, `refreshCredential` returns the
`nil` error and leaves the signer as it was. -/
theorem refreshCredential_missing_field_silent (unmarshal : String → Except Error Json)
    (signer : SignerKeyPair) (response : CommonResponse) (data : Json)
    (hstatus : response.httpStatus = 200)
    (hbody : unmarshal response.httpContentString = Except.ok data)
    (hmissing : jmespath_Search idPath data = Except.ok Json.null ∨
      jmespath_Search secretPath data = Except.ok Json.null) :
    signer.refreshCredential unmarshal response = some (signer, none) := by
  simp only [idPath, secretPath] at hmissing
  rcases hmissing with hid | hsecret
  · obtain ⟨w, hw⟩ : ∃ w, jmespath_Search ["SessionAccessKey", "SessionAccessKeySecret"] data =
        Except.ok w := ⟨_, rfl⟩
    simp [SignerKeyPair.refreshCredential, http_StatusOK, hstatus, hbody, hid, hw]
  · obtain ⟨v, hv⟩ : ∃ v, jmespath_Search ["SessionAccessKey", "SessionAccessKeyId"] data =
        Except.ok v := ⟨_, rfl⟩
    cases v <;>
      simp [SignerKeyPair.refreshCredential, http_StatusOK, hstatus, hbody, hv, hsecret]

/-- Instances of the amended C5: the body `{}` (both fields missing), a body
whose id is `null`, and the body `null`. -/
theorem refreshCredential_missing_field_silent_witness :
    signerWithSession.refreshCredential json_Unmarshal ⟨200, "\x7b\x7d"⟩ =
      some (signerWithSession, none) ∧
    signerWithSession.refreshCredential json_Unmarshal ⟨200, nullIdBody⟩ =
      some (signerWithSession, none) ∧
    freshSigner.refreshCredential json_Unmarshal ⟨200, "null"⟩ = some (freshSigner, none) :=
  ⟨refreshCredential_missing_field_silent json_Unmarshal signerWithSession ⟨200, "\x7b\x7d"⟩
      (Json.obj []) rfl rfl (Or.inl rfl),
   refreshCredential_missing_field_silent json_Unmarshal signerWithSession ⟨200, nullIdBody⟩
      (Json.obj [("SessionAccessKey", Json.obj [("SessionAccessKeyId", Json.null),
        ("SessionAccessKeySecret", Json.str "SECRET1")])]) rfl rfl (Or.inl rfl),
   refreshCredential_missing_field_silent json_Unmarshal freshSigner ⟨200, "null"⟩
      Json.null rfl rfl (Or.inr rfl)⟩

/-! ### Reading the access key id -/

/-- A string of length at most zero is the empty string. -/
theorem length_le_zero_iff (s : String) : s.length ≤ 0 ↔ s = "" := by
  rcases s with ⟨d⟩
  cases d with
  | nil => simp [String.length]
  | cons a l =>
    simp only [String.length, List.length_cons]
    constructor
    · intro h; omega
    · intro h
      have hd := congrArg String.data h
      simp at hd

/-- On a non-nil pointer the condition holds exactly for an empty id. -/
theorem nilOrEmptyId_some (c : SessionCredential) :
    nilOrEmptyId (some c) = true ↔ c.AccessKeyId = "" := by
  simp only [nilOrEmptyId, decide_eq_true_eq]
  exact length_le_zero_iff _

/-- C6: when `GetAccessKeyId` attempts a refresh (no session credential, or
`needUpdateCredential` is true) and `updateCredential` returns the error `e`
and the signer `after`: if `after` holds a session credential with a non-empty
id, the result is that id with `e`; if it holds none, or one with an empty id,
the result is the empty string with `e`. When no refresh is attempted the
result is the current id with the `nil` error and the signer is unchanged. -/
theorem GetAccessKeyId_refresh_error (needUpdateCredential : Bool)
    (updateCredential : SignerKeyPair → Option (SignerKeyPair × Option Error))
    (signer : SignerKeyPair) :
    ((signer.sessionCredential = none ∨ needUpdateCredential = true) →
      ∀ (after : SignerKeyPair) (e : Error), updateCredential signer = some (after, some e) →
        (∀ c : SessionCredential, after.sessionCredential = some c → c.AccessKeyId ≠ "" →
          signer.GetAccessKeyId needUpdateCredential updateCredential =
            some (c.AccessKeyId, some e, after)) ∧
        ((after.sessionCredential = none ∨
            ∃ c : SessionCredential, after.sessionCredential = some c ∧ c.AccessKeyId = "") →
          signer.GetAccessKeyId needUpdateCredential updateCredential =
            some ("", some e, after))) ∧
    (¬ (signer.sessionCredential = none ∨ needUpdateCredential = true) →
      ∃ c : SessionCredential, signer.sessionCredential = some c ∧
        signer.GetAccessKeyId needUpdateCredential updateCredential =
          some (c.AccessKeyId, none, signer)) := by
  refine ⟨?_, ?_⟩
  · intro hattempt after e hupdate
    refine ⟨?_, ?_⟩
    · intro c hc hne
      have hfalse : nilOrEmptyId (some c) = false := by
        cases hb : nilOrEmptyId (some c) with
        | false => rfl
        | true => exact absurd ((nilOrEmptyId_some c).1 hb) hne
      simp [SignerKeyPair.GetAccessKeyId, hattempt, hupdate, hc, hfalse]
    · rintro (hnone | ⟨c, hc, hempty⟩)
      · simp [SignerKeyPair.GetAccessKeyId, hattempt, hupdate, hnone, nilOrEmptyId]
      · have htrue : nilOrEmptyId (some c) = true := (nilOrEmptyId_some c).2 hempty
        simp [SignerKeyPair.GetAccessKeyId, hattempt, hupdate, hc, htrue]
  · intro hno
    have hsome : signer.sessionCredential ≠ none := fun h => hno (Or.inl h)
    obtain ⟨c, hc⟩ := Option.ne_none_iff_exists'.1 hsome
    have hneed : needUpdateCredential = false := by
      cases needUpdateCredential with
      | false => rfl
      | true => exact absurd (Or.inr rfl) hno
    exact ⟨c, hc, by simp [SignerKeyPair.GetAccessKeyId, hneed, hc]⟩

/-- Instances of C6: a refresh answered with status 500 on a signer that keeps
`OLDID`, on one that holds no credential and on one whose id is empty; a
transport failure on a signer that keeps `OLDID`; and a call without refresh. -/
theorem GetAccessKeyId_refresh_error_witness :
    signerWithSession.GetAccessKeyId true (updateFromResponse ⟨500, "boom"⟩) =
      some ("OLDID",
        some (Error.NewServerError 500 "boom" "refresh session AccessKey failed"),
        signerWithSession) ∧
    freshSigner.GetAccessKeyId false (updateFromResponse ⟨500, "boom"⟩) =
      some ("",
        some (Error.NewServerError 500 "boom" "refresh session AccessKey failed"),
        freshSigner) ∧
    signerWithEmptyId.GetAccessKeyId true (updateFromResponse ⟨500, "boom"⟩) =
      some ("",
        some (Error.NewServerError 500 "boom" "refresh session AccessKey failed"),
        signerWithEmptyId) ∧
    signerWithSession.GetAccessKeyId true (updateFailing (Error.library "timeout")) =
      some ("OLDID", some (Error.library "timeout"), signerWithSession) ∧
    (∃ c : SessionCredential, signerWithSession.sessionCredential = some c ∧
      signerWithSession.GetAccessKeyId false (updateFailing (Error.library "timeout")) =
        some (c.AccessKeyId, none, signerWithSession)) :=
  ⟨((GetAccessKeyId_refresh_error true (updateFromResponse ⟨500, "boom"⟩) signerWithSession).1
      (Or.inr rfl) signerWithSession _ rfl).1 ⟨"OLDID", "OLDSECRET"⟩ rfl (by decide),
   ((GetAccessKeyId_refresh_error false (updateFromResponse ⟨500, "boom"⟩) freshSigner).1
      (Or.inl rfl) freshSigner _ rfl).2 (Or.inl rfl),
   ((GetAccessKeyId_refresh_error true (updateFromResponse ⟨500, "boom"⟩) signerWithEmptyId).1
      (Or.inr rfl) signerWithEmptyId _ rfl).2 (Or.inr ⟨⟨"", "OLDSECRET"⟩, rfl, rfl⟩),
   ((GetAccessKeyId_refresh_error true (updateFailing (Error.library "timeout"))
      signerWithSession).1 (Or.inr rfl) signerWithSession _ rfl).1
      ⟨"OLDID", "OLDSECRET"⟩ rfl (by decide),
   (GetAccessKeyId_refresh_error false (updateFailing (Error.library "timeout"))
      signerWithSession).2 (by decide)⟩

/-! ### Building the refresh request -/

/-- C7: starting from a new common request with empty query parameters,
`buildCommonRequest` returns the `nil` error and a request for product `Sts`,
version `2015-04-01`, API `GenerateSessionAccessKey` over HTTPS whose query
parameters are exactly `PublicKeyId`, the credential's public key id, and
`DurationSeconds`, the decimal text of `credentialExpiration`; for a signer
built from a `SessionExpiration` in `[900, 3600]` the construction has no
error and `DurationSeconds` is the decimal text of that value. -/
theorem buildCommonRequest_request (NewCommonRequest : CommonRequest) (signer : SignerKeyPair)
    (hempty : NewCommonRequest.QueryParams = []) :
    (signer.buildCommonRequest NewCommonRequest).2 = none ∧
    (signer.buildCommonRequest NewCommonRequest).1.Product = "Sts" ∧
    (signer.buildCommonRequest NewCommonRequest).1.Version = "2015-04-01" ∧
    (signer.buildCommonRequest NewCommonRequest).1.ApiName = "GenerateSessionAccessKey" ∧
    (signer.buildCommonRequest NewCommonRequest).1.Scheme = Scheme.HTTPS ∧
    (signer.buildCommonRequest NewCommonRequest).1.QueryParams =
      [("PublicKeyId", signer.credential.PublicKeyId),
       ("DurationSeconds", strconv_Itoa signer.credentialExpiration)] ∧
    (∀ k : String, (signer.buildCommonRequest NewCommonRequest).1.QueryParams.lookup k =
      if k = "PublicKeyId" then some signer.credential.PublicKeyId
      else if k = "DurationSeconds" then some (strconv_Itoa signer.credentialExpiration)
      else none) ∧
    (∀ (defaultDurationSeconds : Int) (credential : RsaKeyPairCredential),
      900 ≤ credential.SessionExpiration → credential.SessionExpiration ≤ 3600 →
        (NewSignerKeyPair defaultDurationSeconds credential).2 = none ∧
        ((NewSignerKeyPair defaultDurationSeconds credential).1.buildCommonRequest
            NewCommonRequest).1.QueryParams =
          [("PublicKeyId", credential.PublicKeyId),
           ("DurationSeconds", strconv_Itoa credential.SessionExpiration)]) := by
  have hparams : (signer.buildCommonRequest NewCommonRequest).1.QueryParams =
      [("PublicKeyId", signer.credential.PublicKeyId),
       ("DurationSeconds", strconv_Itoa signer.credentialExpiration)] := by
    simp [SignerKeyPair.buildCommonRequest, hempty, StringMap.assign]
  refine ⟨rfl, rfl, rfl, rfl, rfl, hparams, ?_, ?_⟩
  · intro k
    rw [hparams]
    by_cases h1 : k = "PublicKeyId"
    · simp [StringMap.lookup, h1]
    · by_cases h2 : k = "DurationSeconds"
      · simp [StringMap.lookup, h2]
      · have h1' : ¬ ("PublicKeyId" = k) := fun h => h1 h.symm
        have h2' : ¬ ("DurationSeconds" = k) := fun h => h2 h.symm
        simp [StringMap.lookup, h1, h2, h1', h2']
  · intro defaultDurationSeconds credential hlo hhi
    have hpos : credential.SessionExpiration > 0 := by omega
    simp [SignerKeyPair.buildCommonRequest, hempty, StringMap.assign, NewSignerKeyPair, hpos,
      hlo, hhi]

/-- Instance of C7: the request of a signer built from `SessionExpiration = 900`
carries exactly `PublicKeyId = id` and `DurationSeconds = 900`, and a key other
than the two is absent. -/
theorem buildCommonRequest_request_witness :
    emptyCommonRequest.QueryParams = [] ∧
    strconv_Itoa 900 = "900" ∧
    ((NewSignerKeyPair 3600 ⟨"key", "id", 900⟩).2 = none ∧
      ((NewSignerKeyPair 3600 ⟨"key", "id", 900⟩).1.buildCommonRequest
          emptyCommonRequest).1.QueryParams =
        [("PublicKeyId", "id"), ("DurationSeconds", strconv_Itoa 900)]) ∧
    (signerWithSession.buildCommonRequest emptyCommonRequest).1.QueryParams.lookup "Action" =
      none ∧
    signerWithSession.buildCommonRequest emptyCommonRequest =
      ({ Product := "Sts", Version := "2015-04-01", ApiName := "GenerateSessionAccessKey",
         Scheme := Scheme.HTTPS,
         QueryParams := [("PublicKeyId", "id"), ("DurationSeconds", "3600")] }, none) :=
  ⟨rfl, by decide,
   (buildCommonRequest_request emptyCommonRequest signerWithSession rfl).2.2.2.2.2.2.2
      3600 ⟨"key", "id", 900⟩ (by decide) (by decide),
   (buildCommonRequest_request emptyCommonRequest signerWithSession rfl).2.2.2.2.2.2.1 "Action",
   by decide⟩

/-! ### Signing -/

/-- What `Sign` computes on a signer that holds a session credential: the key
handed to `ShaHmac1` is the credential's `AccessKeyId` followed by the suffix. -/
theorem Sign_of_session (shaHmac1 : String → String → String) (signer : SignerKeyPair)
    (c : SessionCredential) (stringToSign secretSuffix : String)
    (hc : signer.sessionCredential = some c) :
    signer.Sign shaHmac1 stringToSign secretSuffix =
      some (shaHmac1 stringToSign (c.AccessKeyId ++ secretSuffix)) := by
  simp [SignerKeyPair.Sign, hc]

set_option maxRecDepth 100000 in
/-- The definition of `ShaHmac1` on a published HMAC-SHA1 example: the key
`key` and the text `The quick brown fox jumps over the lazy dog` give the digest
`de7c9b85b8b78aa6bc8a7a36f70a90701c9db4d9`, in base64 below. -/
theorem ShaHmac1_known_answer :
    ShaHmac1 "The quick brown fox jumps over the lazy dog" "key" =
      "3nybhbi3iqa8ino29wqQcBydtNk=" := by
  decide

set_option maxRecDepth 100000 in
/-- C2 on the code: for the session credential `AKID1` / `SECRET1`, the input
`x` and the suffix `&`, `Sign` returns the HMAC under the key `AKID1&`, which is
not the HMAC under `SECRET1&`; and two signers with the same session secret and
different ids return different signatures. -/
theorem Sign_keyed_by_AccessKeyId :
    signerOne.Sign ShaHmac1 "x" "&" = some (ShaHmac1 "x" "AKID1&") ∧
    ShaHmac1 "x" "AKID1&" = "xTVWVpROCr2JVI2NZEi3mYIzKUA=" ∧
    ShaHmac1 "x" "SECRET1&" = "ZgMKc1X78+X8udd5ieVFY0S1n08=" ∧
    signerOne.Sign ShaHmac1 "x" "&" ≠ some (ShaHmac1 "x" "SECRET1&") ∧
    signerOne.Sign ShaHmac1 "x" "&" ≠ signerTwo.Sign ShaHmac1 "x" "&" := by
  decide

/-- C9 on the code: a signer right after `NewSignerKeyPair` holds no session
credential, and `Sign` on it dereferences the nil pointer: it does not return
a signature, whatever the input, the suffix and the HMAC function. -/
theorem Sign_without_session_panics (shaHmac1 : String → String → String)
    (defaultDurationSeconds : Int) (credential : RsaKeyPairCredential)
    (stringToSign secretSuffix : String) :
    (NewSignerKeyPair defaultDurationSeconds credential).1.sessionCredential = none ∧
    (NewSignerKeyPair defaultDurationSeconds credential).1.Sign shaHmac1 stringToSign
      secretSuffix = none := by
  have hnone : (NewSignerKeyPair defaultDurationSeconds credential).1.sessionCredential = none := by
    unfold NewSignerKeyPair
    split_ifs <;> rfl
  exact ⟨hnone, by simp [SignerKeyPair.Sign, hnone]⟩

/-! ### Reading the access key id after a silent refresh -/

/-- What `GetAccessKeyId` does when the refresh it attempts returns the `nil`
error and a signer without session credential: the final `return` dereferences
the nil pointer. -/
theorem GetAccessKeyId_nil_after_silent_refresh (needUpdateCredential : Bool)
    (updateCredential : SignerKeyPair → Option (SignerKeyPair × Option Error))
    (signer after : SignerKeyPair)
    (hattempt : signer.sessionCredential = none ∨ needUpdateCredential = true)
    (hupdate : updateCredential signer = some (after, none))
    (hnone : after.sessionCredential = none) :
    signer.GetAccessKeyId needUpdateCredential updateCredential = none := by
  simp [SignerKeyPair.GetAccessKeyId, hattempt, hupdate, hnone]

/-- C10 on the code: on a signer without session credential whose refresh is
answered with status 200 and the body `{}`, `refreshCredential` returns the
`nil` error without installing a credential, and `GetAccessKeyId` then
dereferences the nil session credential instead of returning. -/
theorem GetAccessKeyId_nil_dereference :
    freshSigner.sessionCredential = none ∧
    updateFromResponse ⟨200, "\x7b\x7d"⟩ freshSigner = some (freshSigner, none) ∧
    freshSigner.GetAccessKeyId false (updateFromResponse ⟨200, "\x7b\x7d"⟩) = none ∧
    freshSigner.GetAccessKeyId true (updateFromResponse ⟨200, "\x7b\x7d"⟩) = none := by
  refine ⟨rfl, rfl, ?_, ?_⟩ <;> rfl

end Signers
